import Mathlib

/-!
Verification of the assignee-search autocomplete widget of jiratui
(`src/jiratui/widgets/filters.py`, class `AssigneeSearchInput`) and of the
wire-parameter contract of the self-hosted (Data Center) assignable-user
search.  The widget is embedded as a pure state machine: each Python method
becomes a Lean function on an explicit record of the instance attributes,
and the event handlers become a step function that also returns the list of
`UserSearchRequested` queries posted during the step.
-/

namespace JiraTUI

/-- Minimum number of characters (after trimming) a query needs before a
search is requested.  Modelled from the spec: the constant
`FULL_TEXT_SEARCH_DEFAULT_MINIMUM_TERM_LENGTH` lives in `jiratui.constants`,
which is not part of the excerpt; spec section 8 fixes the threshold at 3
("type \"ad\" (below threshold, len 2 < 3)"). -/
def FULL_TEXT_SEARCH_DEFAULT_MINIMUM_TERM_LENGTH : Nat := 3

/-- Embedding of Python's `str.strip()` with no argument: remove whitespace
characters from both ends of the string. -/
def pyStrip (s : String) : String :=
  ⟨((s.data.dropWhile Char.isWhitespace).reverse.dropWhile Char.isWhitespace).reverse⟩

/-- The mutable attributes of one `AssigneeSearchInput` instance together
with the mirrored state of its inner widgets:

* `selection`, `options`, `programmatic_update`, `options_visible` and
  `search_timer` mirror `_selection`, `_options`, `_programmatic_update`,
  `_options_visible` and `_search_timer`;
* `input_value` mirrors the inner `Input` widget's `value`;
* `highlighted` mirrors the inner `OptionList` widget's `highlighted`.

The timer is modelled by the query its callback would post: `some q` means a
callback posting `UserSearchRequested(q)` is pending, `none` means no timer
is armed (`set_timer` arms it, `stop` disarms it, firing posts and disarms). -/
structure AssigneeState where
  selection : Option String
  options : List (String × String)
  input_value : String
  programmatic_update : Bool
  options_visible : Bool
  highlighted : Option Nat
  search_timer : Option String
  deriving Repr, DecidableEq

/-- The state right after `__init__`: no selection, no options, no pending
timer, the option list hidden and the input empty. -/
def initState : AssigneeState :=
  { selection := none
    options := []
    input_value := ""
    programmatic_update := false
    options_visible := false
    highlighted := none
    search_timer := none }

/-- Embedding of `_show_options`. -/
def show_options (st : AssigneeState) : AssigneeState :=
  { st with options_visible := true }

/-- Embedding of `_hide_options`. -/
def hide_options (st : AssigneeState) : AssigneeState :=
  { st with options_visible := false }

/-- Embedding of the `_on_input_changed` handler body, applied to the value
carried by the `Input.Changed` event.  When `_programmatic_update` is set the
handler returns at once.  Otherwise it stops and drops any pending timer,
clears the selection, trims the text, and either arms a fresh timer whose
callback will post `UserSearchRequested(query)` (when the trimmed query is
long enough) or hides the option list.  The handler itself posts nothing;
only the timer callback does. -/
def on_input_changed (st : AssigneeState) (value : String) : AssigneeState :=
  if st.programmatic_update then st
  else if FULL_TEXT_SEARCH_DEFAULT_MINIMUM_TERM_LENGTH ≤ (pyStrip value).length then
    { st with search_timer := some (pyStrip value), selection := none }
  else
    { st with search_timer := none, selection := none, options_visible := false }

/-- Embedding of `_write_input`: set the guard, assign the inner `Input`'s
`value`, and clear the guard.  Per spec section 4.3 the change notification
produced by the assignment observes the guard, so the echo is delivered to
`_on_input_changed` while `programmatic_update` is still true; we model that
by running the handler on the updated state inside the guarded region. -/
def write_input (st : AssigneeState) (text : String) : AssigneeState :=
  let st1 := { st with programmatic_update := true, input_value := text }
  let st2 := on_input_changed st1 text
  { st2 with programmatic_update := false }

/-- Embedding of `_write_input` including its exceptional path.  The body is

    self._programmatic_update = True
    self.query_one(Input).value = text
    self._programmatic_update = False

with no `try`/`finally`; the middle statement can raise (for example
`query_one` raises `NoMatches` when the widget is not mounted).  `raises`
says whether the write raises; on `Except.error` the Python exception
propagates to the caller with the instance state exactly as it was at the
raise point — in particular with the guard still set. -/
def write_input_run (raises : Bool) (st : AssigneeState) (text : String) :
    Except AssigneeState AssigneeState :=
  let st1 := { st with programmatic_update := true }
  if raises then Except.error st1
  else
    let st2 := on_input_changed { st1 with input_value := text } text
    Except.ok { st2 with programmatic_update := false }

/-- Embedding of `set_options`: store the options, rebuild the inner
`OptionList` (which resets its highlight), then highlight index 0 and show
the list when the new options are non-empty, or hide the list when they are
empty. -/
def set_options (st : AssigneeState) (options : List (String × String)) :
    AssigneeState :=
  let st1 := { st with options := options, highlighted := none }
  match options with
  | [] => hide_options st1
  | _ :: _ => show_options { st1 with highlighted := some 0 }

/-- Embedding of the `for name, aid in self._options` loop of `set_value`:
the first pair whose account id matches sets the selection, writes the name
into the input and hides the list, then returns; when nothing matches, the
loop falls through and the method returns with the state untouched. -/
def set_value_loop (st : AssigneeState) (account_id : String) :
    List (String × String) → AssigneeState
  | [] => st
  | (name, aid) :: rest =>
    if aid = account_id then
      hide_options (write_input { st with selection := some account_id } name)
    else
      set_value_loop st account_id rest

/-- Embedding of `set_value`. -/
def set_value (st : AssigneeState) (account_id : String) : AssigneeState :=
  set_value_loop st account_id st.options

/-- Embedding of `clear`: drop the selection and the options, blank the
input through the guarded write, and hide the list. -/
def clear (st : AssigneeState) : AssigneeState :=
  hide_options (write_input { st with selection := none, options := [] } "")

/-- Python list subscription `xs[i]` for a signed index: a non-negative
index below the length selects that element, a negative index at or above
`-len` counts from the end, and anything else raises `IndexError`, which we
render as `none`. -/
def pyGet (xs : List (String × String)) (i : Int) : Option (String × String) :=
  if 0 ≤ i then
    if i < (xs.length : Int) then xs.get? i.toNat else none
  else
    if 0 ≤ (xs.length : Int) + i then xs.get? ((xs.length : Int) + i).toNat
    else none

/-- Embedding of `_select_option`, whose signature takes a Python `int`.
The guard is `index < len(self._options)` — a comparison of signed integers —
and inside the guard `self._options[index]` subscribes with Python index
semantics, so a sufficiently negative index raises `IndexError`
(`Except.error`).  On success the selection, the guarded input write and the
hide happen in source order. -/
def select_option (st : AssigneeState) (index : Int) :
    Except String AssigneeState :=
  if index < (st.options.length : Int) then
    match pyGet st.options index with
    | none => Except.error "IndexError: list index out of range"
    | some (name, account_id) =>
      Except.ok (hide_options (write_input { st with selection := some account_id } name))
  else
    Except.ok st

/-- Embedding of `_on_input_submitted`: when the list is visible and the
inner `OptionList` has a highlight, finalise the selection at that highlight
(a raising `_select_option` would propagate; it cannot here because the
highlight is a list position, hence non-negative). -/
def on_input_submitted (st : AssigneeState) : AssigneeState :=
  if st.options_visible then
    match st.highlighted with
    | some h =>
      match select_option st (h : Int) with
      | Except.ok st1 => st1
      | Except.error _ => st
    | none => st
  else st

/-- Embedding of `on_key`: inert while the list is hidden; `down` moves the
highlight towards the end (or to index 0 from no highlight when options
exist), `up` moves it towards the start (and does nothing from no
highlight), `escape` hides the list, any other key falls through. -/
def on_key (st : AssigneeState) (key : String) : AssigneeState :=
  if st.options_visible = false then st
  else if key = "down" then
    match st.highlighted with
    | some h =>
      if h < st.options.length - 1 then { st with highlighted := some (h + 1) }
      else st
    | none =>
      if 0 < st.options.length then { st with highlighted := some 0 }
      else st
  else if key = "up" then
    match st.highlighted with
    | some h => if 0 < h then { st with highlighted := some (h - 1) } else st
    | none => st
  else if key = "escape" then hide_options st
  else st

/-- The events one widget instance can process on its single UI task:
genuine user edits (the inner `Input` updates its value, then the `Changed`
handler runs), the debounce timer firing, key events, Enter, the host
feeding results back via `set_options`, the host preselecting via
`set_value`, `clear`, and a direct `_select_option` call. -/
inductive WidgetEvent where
  | inputChanged (value : String)
  | timerFire
  | key (k : String)
  | submitted
  | setOptions (options : List (String × String))
  | setValue (account_id : String)
  | clearEvent
  | selectOption (index : Int)
  deriving Repr, DecidableEq

/-- One event processed to completion.  The second component lists the
queries of the `UserSearchRequested` messages posted during the step: only a
firing timer posts (its callback is `post_message(UserSearchRequested(q))`);
every other step posts nothing.  A raising `_select_option` leaves the state
as it was at the raise point, which for an out-of-range subscript is the
unmodified state. -/
def step (st : AssigneeState) : WidgetEvent → AssigneeState × List String
  | .inputChanged v => (on_input_changed { st with input_value := v } v, [])
  | .timerFire =>
    match st.search_timer with
    | some q => ({ st with search_timer := none }, [q])
    | none => (st, [])
  | .key k => (on_key st k, [])
  | .submitted => (on_input_submitted st, [])
  | .setOptions opts => (set_options st opts, [])
  | .setValue aid => (set_value st aid, [])
  | .clearEvent => (clear st, [])
  | .selectOption i =>
    match select_option st i with
    | Except.ok st1 => (st1, [])
    | Except.error _ => (st, [])

/-- State after processing a list of events in order. -/
def runState (st : AssigneeState) : List WidgetEvent → AssigneeState
  | [] => st
  | e :: es => runState (step st e).1 es

/-- Queries posted while processing a list of events in order. -/
def runOut (st : AssigneeState) : List WidgetEvent → List String
  | [] => []
  | e :: es => (step st e).2 ++ runOut (step st e).1 es

/-- Repeated idle ticks: `n` deliveries of the only event that can occur
with no genuine user input, the debounce timer firing (which is inert when
no timer is armed). -/
def quiesce : Nat → AssigneeState → AssigneeState
  | 0, st => st
  | n + 1, st => quiesce n (step st .timerFire).1

/-- Wire parameters of `JiraDataCenterAPI.user_assignable_search`, as an
association list of query-string parameters.  Modelled from the spec: the
module `jiratui.api.api` is not part of the excerpt (only its tests are);
spec section 4.4 fixes the self-hosted contract — the name `username`
carries the trimmed text when that text is non-empty and is omitted entirely
when the text is empty or absent, the name `query` never appears for this
variant, and the scoping issue key is forwarded under its own key when
present. -/
def user_assignable_search_params (issue_key : Option String)
    (query : Option String) : List (String × String) :=
  (match issue_key with
   | some k => [("issueKey", k)]
   | none => []) ++
  (match query with
   | some q => if pyStrip q = "" then [] else [("username", pyStrip q)]
   | none => [])

/-- First value bound to `key` in a wire-parameter list, `none` when the key
is absent from the request. -/
def wireParam : List (String × String) → String → Option String
  | [], _ => none
  | (k, v) :: rest, key => if k = key then some v else wireParam rest key

end JiraTUI

namespace JiraTUI

/-- Concrete visible state used to exercise the theorems: two search
results, the first one highlighted. -/
def resultsState : AssigneeState :=
  { initState with
    options := [("Adam Smith", "id-1"), ("Adam Jones", "id-2")]
    options_visible := true
    highlighted := some 0 }

/-- Concrete state with a pending debounce timer and a visible list. -/
def pendingTimerState : AssigneeState :=
  { initState with
    options := [("Adam Smith", "id-1")]
    options_visible := true
    highlighted := some 0
    search_timer := some "adam" }

/-- Concrete state holding one option and no selection. -/
def absentIdState : AssigneeState :=
  { initState with options := [("Adam Smith", "id-1")] }

/-- Concrete visible state whose option list has no highlight yet. -/
def noHighlightState : AssigneeState :=
  { initState with
    options := [("Adam Smith", "id-1"), ("Adam Jones", "id-2")]
    options_visible := true
    highlighted := none }

lemma write_input_eq (st : AssigneeState) (text : String) :
    write_input st text =
      { st with input_value := text, programmatic_update := false } := by
  simp [write_input, on_input_changed]

lemma on_input_changed_pu (st : AssigneeState) (v : String) :
    (on_input_changed st v).programmatic_update = st.programmatic_update := by
  unfold on_input_changed
  split
  · rfl
  · split <;> rfl

lemma on_input_changed_options (st : AssigneeState) (v : String) :
    (on_input_changed st v).options = st.options := by
  unfold on_input_changed
  split
  · rfl
  · split <;> rfl

lemma on_input_changed_visible (st : AssigneeState) (v : String)
    (h : (on_input_changed st v).options_visible = true) :
    st.options_visible = true := by
  unfold on_input_changed at h
  split at h
  · exact h
  · split at h
    · exact h
    · exact absurd h (by simp)

end JiraTUI

namespace JiraTUI

/-- C1: for every assignable-user search against the self-hosted (Data
Center) backend, the wire parameter set binds `username` to the trimmed
query text exactly when that text is non-empty after trimming, binds it to
nothing when the query is absent or trims to empty, and never contains the
key `query`. -/
theorem dc_assignable_search_username_contract
    (issue_key : Option String) (query : Option String) :
    wireParam (user_assignable_search_params issue_key query) "query" = none ∧
    wireParam (user_assignable_search_params issue_key query) "username" =
      (match query with
       | none => none
       | some q => if pyStrip q = "" then none else some (pyStrip q)) := by
  cases issue_key <;> cases query <;>
    simp [user_assignable_search_params, wireParam] <;>
    split <;> simp [wireParam]

/-- C5: `set_options` stores the given candidate list wholesale and in
order; it hides the list exactly when the candidates are empty and shows it
with the highlight at index 0 exactly when they are non-empty. -/
theorem set_options_spec (st : AssigneeState)
    (opts : List (String × String)) :
    (set_options st opts).options = opts ∧
    (set_options st opts).options_visible = !opts.isEmpty ∧
    (set_options st opts).highlighted =
      (if opts.isEmpty then none else some 0) := by
  cases opts <;> simp [set_options, hide_options, show_options]

/-- C7 counterexample: the claim says every out-of-range `_select_option`
call is a silent no-op, but the guard `index < len(self._options)` admits
negative indices: on a two-element option list the index `-3` passes the
guard and the subscript `self._options[-3]` raises `IndexError` instead of
being ignored. -/
theorem select_option_negative_index_raises :
    select_option resultsState (-3) =
      Except.error "IndexError: list index out of range" := rfl

/-- C7 amended: for every index at or above the length of the current
options list — in particular every stale non-negative highlight — the call
is a silent no-op: no exception, and the state (selection, input text,
options, visibility) is returned unchanged. -/
theorem select_option_high_index_noop (st : AssigneeState) (i : Int)
    (h : (st.options.length : Int) ≤ i) :
    select_option st i = Except.ok st := by
  unfold select_option
  rw [if_neg (not_lt.mpr h)]

/-- C7 amended witness: index 5 is out of range for the two stored options
and the call returns the state unchanged. -/
theorem select_option_high_index_noop_witness :
    ((resultsState.options.length : Int) ≤ 5) ∧
    select_option resultsState 5 = Except.ok resultsState :=
  ⟨by decide, select_option_high_index_noop resultsState 5 (by decide)⟩

/-- C8 counterexample: the claim says the suppression guard is cleared
regardless of how the write completes, including when it raises; but
`_write_input` has no `try`/`finally`, so when the inner write raises the
exception propagates with `_programmatic_update` still `True`. -/
theorem write_input_raising_leaves_guard_set :
    write_input_run true initState "Adam Smith" =
      Except.error { initState with programmatic_update := true } ∧
    ({ initState with programmatic_update := true } :
      AssigneeState).programmatic_update = true :=
  ⟨rfl, rfl⟩

/-- C8 amended: on every normally completing invocation of `_write_input`
the guard is set immediately before the write and cleared immediately after
it, so the guard is false outside the primitive and the echo of the write is
inert — the resulting state differs from the input state only in the input
text (no selection clearing, no timer scheduling, no visibility change).
When the write raises, the guard is not cleared. -/
theorem write_input_normal_guard_scoped (st : AssigneeState)
    (text : String) :
    write_input_run false st text = Except.ok (write_input st text) ∧
    write_input st text =
      { st with input_value := text, programmatic_update := false } := by
  refine ⟨?_, write_input_eq st text⟩
  simp [write_input_run, write_input]

/-- C9: preselecting an account id that occurs in none of the stored
options leaves the whole widget state unchanged and posts no message. -/
theorem set_value_absent_id_noop (st : AssigneeState) (account_id : String)
    (h : ∀ p ∈ st.options, p.2 ≠ account_id) :
    step st (.setValue account_id) = (st, []) := by
  have loop : ∀ l : List (String × String), (∀ p ∈ l, p.2 ≠ account_id) →
      set_value_loop st account_id l = st := by
    intro l
    induction l with
    | nil => intro _; rfl
    | cons p rest ih =>
      intro hl
      obtain ⟨name, aid⟩ := p
      have hne : aid ≠ account_id := hl (name, aid) (List.mem_cons_self _ _)
      simp only [set_value_loop, if_neg hne]
      exact ih fun q hq => hl q (List.mem_cons_of_mem _ hq)
  simp [step, set_value, loop st.options h]

/-- C9 witness: `"missing-id"` matches no stored option and `set_value`
changes nothing. -/
theorem set_value_absent_id_noop_witness :
    (∀ p ∈ absentIdState.options, p.2 ≠ "missing-id") ∧
    step absentIdState (.setValue "missing-id") = (absentIdState, []) :=
  ⟨by decide, set_value_absent_id_noop absentIdState "missing-id" (by decide)⟩

/-- C10: with the list visible, options present and no current highlight, a
`down` key places the highlight at index 0 while an `up` key leaves the
state — in particular the absent highlight — unchanged. -/
theorem key_down_from_no_highlight (st : AssigneeState)
    (hvis : st.options_visible = true) (hh : st.highlighted = none)
    (hne : st.options ≠ []) :
    (on_key st "down").highlighted = some 0 ∧ on_key st "up" = st := by
  have hlen : 0 < st.options.length := List.length_pos.mpr hne
  unfold on_key
  rw [hvis, hh]
  simp [hlen]

/-- C10 witness: in the concrete visible state with no highlight, `down`
highlights index 0 and `up` changes nothing. -/
theorem key_down_from_no_highlight_witness :
    noHighlightState.options_visible = true ∧
    noHighlightState.highlighted = none ∧
    noHighlightState.options ≠ [] ∧
    ((on_key noHighlightState "down").highlighted = some 0 ∧
      on_key noHighlightState "up" = noHighlightState) :=
  ⟨rfl, rfl, by decide,
    key_down_from_no_highlight noHighlightState rfl rfl (by decide)⟩

end JiraTUI

namespace JiraTUI

lemma timerFire_preserves_visible (st : AssigneeState) :
    (step st .timerFire).1.options_visible = st.options_visible := by
  unfold step
  cases st.search_timer <;> rfl

lemma quiesce_preserves_visible (n : Nat) (st : AssigneeState) :
    (quiesce n st).options_visible = st.options_visible := by
  induction n generalizing st with
  | zero => rfl
  | succ m ih =>
    unfold quiesce
    rw [ih, timerFire_preserves_visible]

/-- C4: a genuine edit whose trimmed text is below the minimum term length
posts nothing, cancels any previously armed debounce timer, clears the
selection and hides the option list; with no timer left armed, a later
timer tick posts nothing either, so no search request for that text can
ever fire. -/
theorem short_query_cancels_and_hides (st : AssigneeState) (v : String)
    (hpu : st.programmatic_update = false)
    (hshort : (pyStrip v).length < FULL_TEXT_SEARCH_DEFAULT_MINIMUM_TERM_LENGTH) :
    step st (.inputChanged v) =
      ({ st with input_value := v, selection := none, search_timer := none,
                 options_visible := false }, []) ∧
    step { st with input_value := v, selection := none, search_timer := none,
                   options_visible := false } .timerFire =
      ({ st with input_value := v, selection := none, search_timer := none,
                 options_visible := false }, []) := by
  constructor
  · simp only [step, on_input_changed, hpu]
    rw [if_neg (by simp), if_neg (not_le.mpr hshort)]
  · rfl

/-- C4 witness: typing `" ab "` (trimmed length 2) over a state with a
pending timer and a visible list cancels the timer, hides the list and
posts nothing, and the subsequent tick posts nothing. -/
theorem short_query_cancels_and_hides_witness :
    pendingTimerState.programmatic_update = false ∧
    (pyStrip " ab ").length < FULL_TEXT_SEARCH_DEFAULT_MINIMUM_TERM_LENGTH ∧
    (step pendingTimerState (.inputChanged " ab ") =
      ({ pendingTimerState with
          input_value := " ab ", selection := none,
          search_timer := none, options_visible := false }, []) ∧
     step { pendingTimerState with
            input_value := " ab ", selection := none,
            search_timer := none, options_visible := false } .timerFire =
      ({ pendingTimerState with
          input_value := " ab ", selection := none,
          search_timer := none, options_visible := false }, [])) :=
  ⟨rfl, by decide,
    short_query_cancels_and_hides pendingTimerState " ab " rfl (by decide)⟩

/-- C2: confirming an in-range highlighted candidate while the list is
visible records that candidate's identifier as the selection, writes its
label into the input, hides the list and posts nothing; and because the
echo of the programmatic write is inert (the resulting state keeps the
previous debounce timer and schedules nothing new), the list stays hidden
through any number of subsequent idle ticks with no genuine keystroke. -/
theorem select_option_confirms_and_stays_hidden (st : AssigneeState)
    (idx : Nat) (_hvis : st.options_visible = true)
    (h : idx < st.options.length) :
    step st (.selectOption idx) =
      ({ st with
          selection := some (st.options.get ⟨idx, h⟩).2,
          input_value := (st.options.get ⟨idx, h⟩).1,
          programmatic_update := false,
          options_visible := false }, []) ∧
    ∀ n : Nat,
      (quiesce n { st with
          selection := some (st.options.get ⟨idx, h⟩).2,
          input_value := (st.options.get ⟨idx, h⟩).1,
          programmatic_update := false,
          options_visible := false }).options_visible = false := by
  have hi : (idx : Int) < (st.options.length : Int) := Int.ofNat_lt.mpr h
  have hget : pyGet st.options idx = some (st.options.get ⟨idx, h⟩) := by
    unfold pyGet
    rw [if_pos (Int.ofNat_nonneg idx), if_pos hi]
    simp [List.get?_eq_get h]
  constructor
  · simp only [step, select_option, if_pos hi, hget, write_input_eq,
      hide_options]
  · intro n
    rw [quiesce_preserves_visible]

/-- C2 witness: confirming index 0 in the concrete visible state selects
`id-1`, shows `Adam Smith` in the input, hides the list, posts nothing, and
the list is still hidden after three idle ticks. -/
theorem select_option_confirms_and_stays_hidden_witness :
    resultsState.options_visible = true ∧
    0 < resultsState.options.length ∧
    step resultsState (.selectOption 0) =
      ({ resultsState with
          selection := some "id-1",
          input_value := "Adam Smith",
          programmatic_update := false,
          options_visible := false }, []) ∧
    (quiesce 3 { resultsState with
        selection := some "id-1",
        input_value := "Adam Smith",
        programmatic_update := false,
        options_visible := false }).options_visible = false :=
  ⟨rfl, by decide,
    (select_option_confirms_and_stays_hidden resultsState 0 rfl (by decide)).1,
    (select_option_confirms_and_stays_hidden resultsState 0 rfl (by decide)).2 3⟩

end JiraTUI

namespace JiraTUI

lemma debounce_run_aux (vs : List String) :
    ∀ (v : String) (st : AssigneeState),
      st.programmatic_update = false →
      (∀ u ∈ v :: vs,
        FULL_TEXT_SEARCH_DEFAULT_MINIMUM_TERM_LENGTH ≤ (pyStrip u).length) →
      runOut st ((v :: vs).map WidgetEvent.inputChanged) = [] ∧
      (runState st ((v :: vs).map WidgetEvent.inputChanged)).search_timer =
        some (pyStrip ((v :: vs).getLast (List.cons_ne_nil v vs))) := by
  induction vs with
  | nil =>
    intro v st hpu hall
    have hv := hall v (List.mem_cons_self v [])
    simp only [List.map, runOut, runState, step]
    constructor
    · rfl
    · simp only [on_input_changed, hpu]
      rw [if_neg (by simp), if_pos hv]
      rfl
  | cons w ws ih =>
    intro v st hpu hall
    have hpu1 : (on_input_changed { st with input_value := v } v).programmatic_update = false := by
      rw [on_input_changed_pu]
      exact hpu
    have hall1 : ∀ u ∈ w :: ws,
        FULL_TEXT_SEARCH_DEFAULT_MINIMUM_TERM_LENGTH ≤ (pyStrip u).length :=
      fun u hu => hall u (List.mem_cons_of_mem v hu)
    have h := ih w (on_input_changed { st with input_value := v } v) hpu1 hall1
    simp only [List.map, runOut, runState, step, List.nil_append] at h ⊢
    rw [List.getLast_cons (List.cons_ne_nil w ws)]
    exact h

/-- C3: over any non-empty burst of genuine edits delivered within one idle
interval (no timer tick in between), each at or above the minimum trimmed
length, no `UserSearchRequested` is posted during the burst (there is no
leading-edge firing: each edit cancels the previously armed timer and arms
a fresh one), the single armed timer carries the trimmed text of the last
edit, and the tick ending the interval posts exactly that one query. -/
theorem debounce_coalesces_to_last_query (st : AssigneeState)
    (vs : List String) (hpu : st.programmatic_update = false)
    (hne : vs ≠ [])
    (hall : ∀ u ∈ vs,
      FULL_TEXT_SEARCH_DEFAULT_MINIMUM_TERM_LENGTH ≤ (pyStrip u).length) :
    runOut st (vs.map WidgetEvent.inputChanged) = [] ∧
    (runState st (vs.map WidgetEvent.inputChanged)).search_timer =
      some (pyStrip (vs.getLast hne)) ∧
    step (runState st (vs.map WidgetEvent.inputChanged)) .timerFire =
      ({ runState st (vs.map WidgetEvent.inputChanged) with
          search_timer := none },
        [pyStrip (vs.getLast hne)]) := by
  match vs, hne with
  | v :: rest, _ =>
    obtain ⟨hout, htimer⟩ := debounce_run_aux rest v st hpu hall
    refine ⟨hout, htimer, ?_⟩
    simp only [step, htimer]

/-- C3 witness: the burst `"ada"`, `" adam "` posts nothing while it lasts,
leaves a timer armed with the trimmed last query `"adam"`, and the tick at
the end of the interval posts exactly `["adam"]`. -/
theorem debounce_coalesces_to_last_query_witness :
    initState.programmatic_update = false ∧
    (["ada", " adam "] ≠ ([] : List String)) ∧
    (∀ u ∈ ["ada", " adam "],
      FULL_TEXT_SEARCH_DEFAULT_MINIMUM_TERM_LENGTH ≤ (pyStrip u).length) ∧
    runOut initState (["ada", " adam "].map WidgetEvent.inputChanged) = [] ∧
    (runState initState (["ada", " adam "].map WidgetEvent.inputChanged)).search_timer =
      some "adam" ∧
    (step (runState initState (["ada", " adam "].map WidgetEvent.inputChanged)) .timerFire).2 =
      ["adam"] := by
  have h := debounce_coalesces_to_last_query initState ["ada", " adam "] rfl
    (by decide) (by decide)
  exact ⟨rfl, by decide, by decide, h.1, h.2.1, by rw [h.2.2]; rfl⟩

end JiraTUI

namespace JiraTUI

lemma select_option_inv (st : AssigneeState) (i : Int) (st1 : AssigneeState)
    (h : select_option st i = Except.ok st1) :
    st1.options = st.options ∧
    (st1.options_visible = true → st.options_visible = true) := by
  unfold select_option at h
  split at h
  · cases hg : pyGet st.options i with
    | none => rw [hg] at h; exact absurd h (by simp)
    | some p =>
      obtain ⟨name, aid⟩ := p
      rw [hg] at h
      simp only [Except.ok.injEq] at h
      subst h
      rw [write_input_eq]
      exact ⟨rfl, by simp [hide_options]⟩
  · simp only [Except.ok.injEq] at h
    subst h
    exact ⟨rfl, fun hv => hv⟩

lemma set_value_loop_inv (st : AssigneeState) (account_id : String)
    (l : List (String × String)) :
    (set_value_loop st account_id l).options = st.options ∧
    ((set_value_loop st account_id l).options_visible = true →
      st.options_visible = true) := by
  induction l with
  | nil => exact ⟨rfl, fun hv => hv⟩
  | cons p rest ih =>
    obtain ⟨name, aid⟩ := p
    by_cases hc : aid = account_id
    · simp only [set_value_loop, if_pos hc, write_input_eq]
      exact ⟨rfl, by simp [hide_options]⟩
    · simpa only [set_value_loop, if_neg hc] using ih

lemma on_key_inv (st : AssigneeState) (k : String) :
    (on_key st k).options = st.options ∧
    ((on_key st k).options_visible = true → st.options_visible = true) := by
  unfold on_key
  split
  · exact ⟨rfl, fun hv => hv⟩
  · split
    · split
      · split
        · exact ⟨rfl, fun hv => hv⟩
        · exact ⟨rfl, fun hv => hv⟩
      · split
        · exact ⟨rfl, fun hv => hv⟩
        · exact ⟨rfl, fun hv => hv⟩
    · split
      · split
        · split
          · exact ⟨rfl, fun hv => hv⟩
          · exact ⟨rfl, fun hv => hv⟩
        · exact ⟨rfl, fun hv => hv⟩
      · split
        · exact ⟨rfl, by simp [hide_options]⟩
        · exact ⟨rfl, fun hv => hv⟩

lemma on_input_submitted_inv (st : AssigneeState) :
    (on_input_submitted st).options = st.options ∧
    ((on_input_submitted st).options_visible = true →
      st.options_visible = true) := by
  unfold on_input_submitted
  split
  · split
    · split
      · next st1 heq => exact select_option_inv st _ st1 heq
      · exact ⟨rfl, fun hv => hv⟩
    · exact ⟨rfl, fun hv => hv⟩
  · exact ⟨rfl, fun hv => hv⟩

lemma step_timerFire_eq (st : AssigneeState) :
    step st .timerFire =
      (match st.search_timer with
       | some q => ({ st with search_timer := none }, [q])
       | none => (st, [])) := rfl

lemma step_selectOption_eq (st : AssigneeState) (i : Int) :
    step st (.selectOption i) =
      (match select_option st i with
       | Except.ok st1 => (st1, [])
       | Except.error _ => (st, [])) := rfl

lemma step_preserves_inv (st : AssigneeState) (e : WidgetEvent)
    (h : st.options_visible = true → st.options ≠ []) :
    (step st e).1.options_visible = true → (step st e).1.options ≠ [] := by
  cases e with
  | inputChanged v =>
    intro hv
    simp only [step] at hv ⊢
    rw [on_input_changed_options]
    exact h (on_input_changed_visible { st with input_value := v } v hv)
  | timerFire =>
    intro hv
    cases hs : st.search_timer <;>
      simp only [step_timerFire_eq, hs] at hv ⊢ <;> exact h hv
  | key k =>
    intro hv
    simp only [step] at hv ⊢
    rw [(on_key_inv st k).1]
    exact h ((on_key_inv st k).2 hv)
  | submitted =>
    intro hv
    simp only [step] at hv ⊢
    rw [(on_input_submitted_inv st).1]
    exact h ((on_input_submitted_inv st).2 hv)
  | setOptions opts =>
    intro hv
    cases opts with
    | nil => simp [step, set_options, hide_options] at hv
    | cons p rest => simp [step, set_options, show_options]
  | setValue aid =>
    intro hv
    simp only [step, set_value] at hv ⊢
    rw [(set_value_loop_inv st aid st.options).1]
    exact h ((set_value_loop_inv st aid st.options).2 hv)
  | clearEvent =>
    intro hv
    simp [step, clear, write_input_eq, hide_options] at hv
  | selectOption i =>
    intro hv
    cases hsel : select_option st i with
    | ok st1 =>
      simp only [step_selectOption_eq, hsel] at hv ⊢
      rw [(select_option_inv st i st1 hsel).1]
      exact h ((select_option_inv st i st1 hsel).2 hv)
    | error e =>
      simp only [step_selectOption_eq, hsel] at hv ⊢
      exact h hv

lemma runState_preserves_inv (evs : List WidgetEvent) :
    ∀ st : AssigneeState, (st.options_visible = true → st.options ≠ []) →
      (runState st evs).options_visible = true →
      (runState st evs).options ≠ [] := by
  induction evs with
  | nil => intro st h; exact h
  | cons e es ih =>
    intro st h
    exact ih (step st e).1 (step_preserves_inv st e h)

/-- C6: in every state reachable from the initial state by any event
sequence — genuine edits, timer ticks, keys, Enter, `set_options`,
`set_value`, `clear` and direct selection — a visible option list implies a
non-empty stored options list; equivalently, every operation that empties
the options also leaves the list hidden. -/
theorem visible_implies_options_nonempty (evs : List WidgetEvent)
    (h : (runState initState evs).options_visible = true) :
    (runState initState evs).options ≠ [] :=
  runState_preserves_inv evs initState (by intro hv; exact absurd hv (by decide)) h

/-- C6 witness: after feeding one non-empty result set the list is visible,
and the theorem yields that the stored options are non-empty. -/
theorem visible_implies_options_nonempty_witness :
    (runState initState
      [WidgetEvent.setOptions [("Adam Smith", "id-1")]]).options_visible = true ∧
    (runState initState
      [WidgetEvent.setOptions [("Adam Smith", "id-1")]]).options ≠ [] :=
  ⟨by decide,
    visible_implies_options_nonempty
      [WidgetEvent.setOptions [("Adam Smith", "id-1")]] (by decide)⟩

end JiraTUI
